import Mathlib

/-!
Verification of the `bel_enrichment` curation pipeline.

This file shallowly embeds the core of the repository:

* `sheets.py` — the curation-outcome classifier (`generate_curation_report`),
  the error-type tally (`generate_error_types`), the summary aggregator
  (`generate_curation_summary`), and the sheet-row ingester (`process_row`);
* `indra_utils.py` — the evidence filter (`_keep_evidence`), the
  statement-to-row projector (`get_rows_from_statement`,
  `_get_rows_from_statement`) and the row sorting performed by
  `print_statements`.

On the report side, where cells are only ever tested with `pd.notnull`,
spreadsheet cells are modelled as `Option String`: `none` stands for a
null (`NaN`) cell, `some s` for a cell holding text `s`.  On the ingester
side, where cells are tested with Python truthiness, cells are modelled by
`Cell`: a blank cell arrives from pandas as the float `NaN`, which is
*truthy* in Python, so `Cell.nan` is truthy while a string cell is truthy
iff nonempty.  External collaborators (the INDRA retrieval service, the
PyBEL assembler and the BEL parser) are taken as parameters, following the
interfaces the repository uses.
-/

deriving instance DecidableEq for Except

namespace BelEnrichment

/-! ### Constants from `sheets.py` -/

def NOT_CURATED : String := "Not curated"

def ERROR : String := "Error"

def CORRECT : String := "Correct"

def ERROR_BUT_ALSO_OTHER_STATEMENT : String := "Error but other statement was identified"

def MODIFIED_BY_CURATOR : String := "Modified by curator"

/-- `pybel.constants.CAUSAL_INCREASE_RELATIONS`. -/
def CAUSAL_INCREASE_RELATIONS : List String := ["increases", "directlyIncreases"]

/-- `pybel.constants.CAUSAL_DECREASE_RELATIONS`. -/
def CAUSAL_DECREASE_RELATIONS : List String := ["decreases", "directlyDecreases"]

/-! ### Curation sheets (`sheets.py`) -/

/-- One row of a curator-edited sheet, as produced by `df.iterrows()`:
each named column gives a cell, `none` modelling a null (`NaN`) cell. -/
structure SheetRow where
  curator : Option String
  checked : Option String
  correct : Option String
  changed : Option String
  evidence : Option String
  predicate : Option String
  errorType : Option String
deriving Repr, DecidableEq

/-- `pd.notnull` on a cell. -/
def pd_notnull (cell : Option String) : Bool :=
  cell.isSome

/-- The running counters held in the `curation_results` defaultdict of
`generate_curation_report`, one field per key ever written. -/
structure CurationResults where
  notCurated : Nat
  error : Nat
  correct : Nat
  errorButAlsoOtherStatement : Nat
  modifiedByCurator : Nat
  total : Nat
deriving Repr, DecidableEq

/-- The empty `defaultdict(int)`. -/
def CurationResults.empty : CurationResults :=
  ⟨0, 0, 0, 0, 0, 0⟩

/-- The Python dict `dict(curation_results)` is empty exactly when no row ever
reached the classification block: every classified row increments `Total`,
so emptiness is `total = 0`. -/
def CurationResults.isEmpty (r : CurationResults) : Bool :=
  r.total == 0

/-- The branch of the `if/elif` chain of `generate_curation_report`
(sheets.py lines 192-212) selected for a given presence-triple.
`conflict` is the branch that only logs `Conflict in row {line}` and
increments no outcome counter. -/
inductive Branch where
  | notCurated
  | error
  | correct
  | modifiedByCurator
  | conflict
  | errorButAlsoOtherStatement
deriving Repr, DecidableEq

/-- The `if/elif` chain of `generate_curation_report`, verbatim: the three
Booleans are `pd.notnull` of the `Checked`, `Correct` and `Changed` cells.
All eight triples are covered by the six branches, so no extra default is
needed; the final `else` mirrors Python falling through every `elif`
(unreachable, and mapped to the logging-only branch which increments
nothing). -/
def classify (checked correct changed : Bool) : Branch :=
  if !(checked || correct || changed) then .notCurated
  else if checked && !(correct || changed) then .error
  else if correct && !changed then .correct
  else if checked && changed then .modifiedByCurator
  else if changed && correct then .conflict
  else if changed then .errorButAlsoOtherStatement
  else .conflict

/-- Which outcome counter (if any) a branch increments. -/
def Branch.apply (b : Branch) (res : CurationResults) : CurationResults :=
  match b with
  | .notCurated => { res with notCurated := res.notCurated + 1 }
  | .error => { res with error := res.error + 1 }
  | .correct => { res with correct := res.correct + 1 }
  | .modifiedByCurator => { res with modifiedByCurator := res.modifiedByCurator + 1 }
  | .conflict => res
  | .errorButAlsoOtherStatement =>
      { res with errorButAlsoOtherStatement := res.errorButAlsoOtherStatement + 1 }

/-- `'No evidence text.'`, the boilerplate placeholder
(`NO_EVIDENCE_TEXT` in `indra_utils.py`, compared literally in
`generate_curation_report`). -/
def NO_EVIDENCE_TEXT : String := "No evidence text."

/-- The classification block of the row loop of `generate_curation_report`
(sheets.py lines 183-214): take `pd.notnull` of the three checkbox cells,
run the `if/elif` chain, then increment `Total`. -/
def report_row_classify (res : CurationResults) (row : SheetRow) :
    CurationResults :=
  let checked := pd_notnull row.checked
  let correct := pd_notnull row.correct
  let changed := pd_notnull row.changed
  let res := (classify checked correct changed).apply res
  { res with total := res.total + 1 }

/-- The body of the row loop of `generate_curation_report` for one row:
skip the row when its `Evidence` cell equals the boilerplate placeholder,
apply the optional `edge_type_filter` (raising `ValueError` on an invalid
filter name, modelled as `Except.error`), then classify the presence-triple
and increment `Total`. -/
def report_row_step (edgeTypeFilter : Option String) (res : CurationResults)
    (row : SheetRow) : Except String CurationResults :=
  if row.evidence = some NO_EVIDENCE_TEXT then .ok res
  else
    match edgeTypeFilter with
    | none => .ok (report_row_classify res row)
    | some f =>
      if f = "activation_edges" then
        if !(match row.predicate with
             | some p => CAUSAL_INCREASE_RELATIONS.contains p
             | none => false) then .ok res
        else .ok (report_row_classify res row)
      else if f = "inhibition_edges" then
        if !(match row.predicate with
             | some p => CAUSAL_DECREASE_RELATIONS.contains p
             | none => false) then .ok res
        else .ok (report_row_classify res row)
      else .error ("Not valid edge_type: " ++ f)

/-- The result of `pd.read_excel(path)`: either the `LookupError` branch
(an unreadable file) or a sheet with its column names and its rows. -/
inductive ReadResult where
  | unreadable
  | sheet (columns : List String) (rows : List SheetRow)
deriving Repr, DecidableEq

/-- The rows of a readable sheet (an unreadable one yields none). -/
def ReadResult.rows : ReadResult → List SheetRow
  | .unreadable => []
  | .sheet _ rows => rows

/-- `_check_curation_template_columns`: `True` exactly when the four
required columns are all present (each absence is logged and yields
`False`). -/
def check_curation_template_columns (columns : List String) : Bool :=
  columns.contains "Curator" && columns.contains "Checked" &&
    columns.contains "Correct" && columns.contains "Changed"

/-- Whether a read result would pass sheet-level intake without raising:
an unreadable file is caught and logged, and a readable sheet must pass the
column check. -/
def sheet_header_ok : ReadResult → Bool
  | .unreadable => true
  | .sheet columns _ => check_curation_template_columns columns

/-- `generate_curation_report`: an unreadable file is logged and an empty
dict is returned; a sheet failing the column check raises
`ValueError(f'{path} has a problem with the header')`; otherwise the row
loop folds `report_row_step` over the rows. -/
def generate_curation_report (path : String) (edgeTypeFilter : Option String)
    (rd : ReadResult) : Except String CurationResults :=
  match rd with
  | .unreadable => .ok CurationResults.empty
  | .sheet columns rows =>
    if !check_curation_template_columns columns then
      .error (path ++ " has a problem with the header")
    else
      rows.foldlM (report_row_step edgeTypeFilter) CurationResults.empty

/-- Increment a string-keyed counter dict (`defaultdict(int)`), keys kept in
first-insertion order as Python dicts do. -/
def dict_incr (m : List (String × Nat)) (k : String) : List (String × Nat) :=
  if m.any (fun p => p.1 == k) then
    m.map (fun p => if p.1 == k then (p.1, p.2 + 1) else p)
  else m ++ [(k, 1)]

/-- ASCII lower-casing of one character, as `str.lower()` acts on the
error-type tags. -/
def char_lower (c : Char) : Char :=
  if 65 ≤ c.toNat ∧ c.toNat ≤ 90 then Char.ofNat (c.toNat + 32) else c

/-- Python `str.lower()`. -/
def py_lower (s : String) : String :=
  ⟨s.toList.map char_lower⟩

/-- Python `str.strip()`: drop leading and trailing whitespace. -/
def py_strip (s : String) : String :=
  ⟨((s.toList.dropWhile Char.isWhitespace).reverse.dropWhile Char.isWhitespace).reverse⟩

/-- Helper for `str.split(',')`: cut the character list at every comma. -/
def split_commas_aux : List Char → List Char → List (List Char)
  | [], acc => [acc.reverse]
  | c :: rest, acc =>
    if c = ',' then acc.reverse :: split_commas_aux rest []
    else split_commas_aux rest (c :: acc)

/-- Python `str.split(',')`. -/
def py_split_commas (s : String) : List String :=
  (split_commas_aux s.toList []).map List.asString

/-- The body of the row loop of `generate_error_types` for one row: a null
`Error Type` cell is skipped; otherwise the cell is split on commas and each
token is lower-cased, stripped and counted
(`error_types[error.lower().strip()] += 1`). -/
def error_types_row_step (m : List (String × Nat)) (row : SheetRow) :
    List (String × Nat) :=
  match row.errorType with
  | none => m
  | some s =>
    (py_split_commas s).foldl (fun m e => dict_incr m (py_strip (py_lower e))) m

/-- `generate_error_types`: fold the row step over all rows and report the
`Curator` cell of row 0 alongside.  (The Python version re-reads the excel
file itself; here it receives the rows.) -/
def generate_error_types (rows : List SheetRow) :
    List (String × Nat) × Option String :=
  (rows.foldl error_types_row_step [], (rows.head?).bind SheetRow.curator)

/-- The accumulated outputs of `generate_curation_summary`: the
`summary_excel_rows` and `error_excel_rows` dicts (keys in insertion order;
the claims use distinct keys, so plain association lists are faithful) plus
the warning log lines it emits. -/
structure Summary where
  summaryRows : List (String × CurationResults)
  errorRows : List (String × List (String × Nat))
  logs : List String
deriving Repr, DecidableEq

/-- The empty summary state. -/
def Summary.empty : Summary :=
  ⟨[], [], []⟩

/-- `path.split('/')[-2]`: the parent-folder name of a sheet, used as the
gene symbol keying both summary dicts. -/
def gene_symbol (path : String) : String :=
  let parts := path.splitOn "/"
  parts.getD (parts.length - 2) ""

/-- The body of the sheet loop of `generate_curation_summary` for one sheet:
run `generate_curation_report` (letting its `ValueError` propagate), record
its result dict under the gene symbol, and when that dict is empty log
`Missing sheet, skipping curation report for {path}` and skip the
error-type report, else record `generate_error_types` as well. -/
def summary_sheet_step (edgeTypeFilter : Option String) (acc : Summary)
    (entry : String × ReadResult) : Except String Summary :=
  let (path, rd) := entry
  match generate_curation_report path edgeTypeFilter rd with
  | .error e => .error e
  | .ok d =>
    let acc := { acc with summaryRows := acc.summaryRows ++ [(gene_symbol path, d)] }
    if d.isEmpty then
      .ok { acc with
            logs := acc.logs ++ ["Missing sheet, skipping curation report for " ++ path] }
    else
      .ok { acc with
            errorRows := acc.errorRows ++ [(gene_symbol path, (generate_error_types rd.rows).1)] }

/-- `generate_curation_summary` over the discovered sheets (each given with
its path and read result), before the final CSV export. -/
def generate_curation_summary (edgeTypeFilter : Option String)
    (sheets : List (String × ReadResult)) : Except String Summary :=
  sheets.foldlM (summary_sheet_step edgeTypeFilter) Summary.empty

/-! ### Statements, evidence and rows (`indra_utils.py`) -/

/-- `'Modified assertion'`, the second boilerplate placeholder. -/
def MODIFIED_ASSERTION : String := "Modified assertion"

/-- `TEXT_BLACKLIST = {NO_EVIDENCE_TEXT, MODIFIED_ASSERTION}`. -/
def TEXT_BLACKLIST : List String := [NO_EVIDENCE_TEXT, MODIFIED_ASSERTION]

/-- `SOURCE_BLACKLIST = {'bel', 'signor'}`. -/
def SOURCE_BLACKLIST : List String := ["bel", "signor"]

/-- `SUBSTRING_BLACKLIST = {'CHEBI', 'PUBCHEM'}`. -/
def SUBSTRING_BLACKLIST : List String := ["CHEBI", "PUBCHEM"]

/-- One INDRA `Evidence` record: document id, free text and source API.
A Python `None` or empty-string field is modelled as the empty string, which
is exactly the falsy case of the truthiness tests in `_keep_evidence`. -/
structure Evidence where
  pmid : String
  text : String
  source_api : String
deriving Repr, DecidableEq

/-- `_keep_evidence`: the conjunction of the five truthiness/blacklist
tests, verbatim. -/
def keep_evidence (e : Evidence) : Bool :=
  e.pmid ≠ "" && e.text ≠ "" && !(TEXT_BLACKLIST.contains e.text) &&
    e.source_api ≠ "" && !(SOURCE_BLACKLIST.contains e.source_api)

/-- One INDRA `Statement` as this pipeline consumes it: provenance, belief
and the mutable evidence list.  The subject/object payload is opaque here and
lives behind the rendering collaborator. -/
structure Statement where
  uuid : String
  stmt_hash : String
  belief : ℚ
  evidence : List Evidence
deriving Repr, DecidableEq

/-- One BEL graph edge as `_get_rows_from_statement` reads it off
`graph.edges(data=True)` after `edge_to_tuple`: the relation kind, the
rendered subject/relation/object strings, the optional citation identifier
(`none` when `CITATION not in data`) and the annotation/evidence payload. -/
structure Edge where
  relation : String
  bel_subject : String
  bel_relation : String
  bel_object : String
  citation_identifier : Option String
  evidence : String
  uuid : String
  stmt_hash : String
  source_hash : String
  source_api : String
deriving Repr, DecidableEq

/-- `pybel.constants.UNQUALIFIED_EDGES`: the structural edge kinds that
carry no citation/evidence. -/
def UNQUALIFIED_EDGES : List String :=
  ["hasVariant", "hasReactant", "hasProduct", "hasComponent", "partOf",
   "transcribedTo", "translatedTo", "isA", "equivalentTo", "orthologous"]

/-- One curation-sheet line (`Row` dataclass). -/
structure Row where
  uuid : String
  statement_hash : String
  evidence_hash : String
  api : String
  belief : ℚ
  pmid : String
  evidence : String
  bel_subject : String
  bel_relation : String
  bel_object : String
deriving Repr, DecidableEq

/-- Substring containment, `sub in s` of Python. -/
def str_contains (s sub : String) : Bool :=
  decide (sub.toList <:+: s.toList)

/-- `round(x, 2)` on the belief score (Python rounds the underlying float;
the claims do not depend on the tie-breaking rule, so ordinary rounding of
the rational is used). -/
def round2 (q : ℚ) : ℚ :=
  round (q * 100) / 100

/-- `_get_rows_from_statement`: build the BEL graph of the statement via
the external assembler (`render`) and emit one `Row` per edge, skipping
unqualified relations, edges whose rendered parts contain a blacklisted
substring, and edges without citation data. -/
def rows_from_statement_edges (render : Statement → List Edge)
    (statement : Statement) : List Row :=
  (render statement).filterMap fun data =>
    if UNQUALIFIED_EDGES.contains data.relation then none
    else if (SUBSTRING_BLACKLIST.any fun sub =>
        str_contains data.bel_subject sub || str_contains data.bel_relation sub ||
          str_contains data.bel_object sub) then none
    else
      match data.citation_identifier with
      | none => none
      | some citation_identifier =>
        some {
          uuid := data.uuid
          statement_hash := data.stmt_hash
          evidence_hash := data.source_hash
          belief := round2 statement.belief
          pmid := citation_identifier
          evidence := data.evidence
          api := data.source_api
          bel_subject := data.bel_subject
          bel_relation := data.bel_relation
          bel_object := data.bel_object }

/-- `get_rows_from_statement`: prune the evidence list through
`_keep_evidence` in place, return nothing when it empties, optionally
restrict to the requested document ids, truncate to the first surviving
evidence when duplicates are disallowed (`del statement.evidence[1:]`), and
hand the statement to `_get_rows_from_statement`. -/
def get_rows_from_statement (render : Statement → List Edge)
    (statement : Statement) (allow_duplicates : Bool)
    (keep_only_pmids : Option (List String)) : List Row :=
  let statement := { statement with evidence := statement.evidence.filter keep_evidence }
  if statement.evidence.length = 0 then []
  else
    let statement :=
      match keep_only_pmids with
      | none => statement
      | some pmids =>
        { statement with
          evidence := statement.evidence.filter fun e => pmids.contains e.pmid }
    let statement :=
      if !allow_duplicates then
        { statement with evidence := statement.evidence.take 1 }
      else statement
    rows_from_statement_edges render statement

/-- The default `sort_attrs = ('uuid', 'pmid')` of `print_statements`,
as `attrgetter('uuid', 'pmid')` reads it off a `Row`. -/
def Row.sortKey (r : Row) : String × String :=
  (r.uuid, r.pmid)

/-- Python's lexicographic tuple comparison on the default sort key.
Python compares strings lexicographically by code point, which is the
lexicographic order on the character lists. -/
def row_le (a b : Row) : Prop :=
  a.uuid.toList < b.uuid.toList ∨ (a.uuid = b.uuid ∧ a.pmid.toList ≤ b.pmid.toList)

instance : DecidableRel row_le := fun a b => by
  unfold row_le
  infer_instance

/-- Whether a row carries the given (uuid, pmid) sort key; used to state
stability of the sort. -/
def same_key (u p : String) (r : Row) : Bool :=
  r.uuid == u && r.pmid == p

/-- `sorted(rows, key=attrgetter(*sort_attrs))` of `print_statements`:
CPython's `sorted` is a stable sort, modelled extensionally by stable
insertion sort on the same key. -/
def sort_rows (rows : List Row) : List Row :=
  rows.insertionSort row_le

/-- The row pipeline of `print_statements` after the external
`run_preassembly` / `filter_grounded_only` / `filter_belief` collaborators:
project every statement in order, sort with the default key, then apply the
optional limit. -/
def print_statements_rows (render : Statement → List Edge)
    (statements : List Statement) (allow_duplicates : Bool)
    (keep_only_pmids : Option (List String)) (limit : Option Nat) : List Row :=
  let rows := statements.flatMap fun s =>
    get_rows_from_statement render s allow_duplicates keep_only_pmids
  let rows := sort_rows rows
  match limit with
  | some n => rows.take n
  | none => rows

/-! ### Sheet-row ingestion (`process_row` of `sheets.py`) -/

/-- `pybel.constants.CITATION_TYPE_PUBMED`. -/
def CITATION_TYPE_PUBMED : String := "PubMed"

/-- A cell value as `df.iterrows()` delivers it to `process_row`.  A blank
spreadsheet cell arrives as the float `NaN` (`Cell.nan`): note that
`bool(float('nan'))` is `True` in Python, so such a cell is *truthy*.
`Cell.str s` is a text cell; the empty string stands for the Python-falsy
cell values (`None`, `''`, `False`, `0`) and a nonempty string for any other
truthy value. -/
inductive Cell where
  | nan
  | str (s : String)
deriving Repr, DecidableEq

/-- Python truthiness of a cell, as `if not row['Checked']` evaluates it:
`NaN` (a blank cell) is truthy, a string is truthy iff nonempty. -/
def truthy : Cell → Bool
  | .nan => true
  | .str s => s ≠ ""

/-- One row handed to `process_row`.  The columns `process_row` reads
unconditionally are plain strings; the checkbox cells are `Cell`s (a blank
cell being `NaN`), and the optional columns (`Citation Reference`, `PMID`,
`INDRA UUID`, `Belief`, `API`) are `none` when the column is absent from the
sheet. -/
structure IngestRow where
  checked : Cell
  correct : Cell
  changed : Cell
  curator : String
  evidence : String
  subject : String
  predicate : String
  object : String
  citation_reference : Option String
  pmid : Option String
  indra_uuid : Option String
  belief : Option String
  api : Option String
deriving Repr, DecidableEq

/-- The citation block assigned to `bel_parser.control_parser.citation`. -/
structure Citation where
  citation_type : String
  reference : String
deriving Repr, DecidableEq

/-- Set one key of a string-keyed dict as Python dict assignment does: an
existing key keeps its insertion position and gets the new value, a new key
is appended at the end. -/
def dict_set : List (String × String) → String → String → List (String × String)
  | [], k, v => [(k, v)]
  | p :: t, k, v => if p.1 == k then (k, v) :: t else p :: dict_set t k v

/-- Python `dict.update`: set every key of `kvs` in turn, never removing
existing keys. -/
def dict_update (m kvs : List (String × String)) : List (String × String) :=
  kvs.foldl (fun acc kv => dict_set acc kv.1 kv.2) m

/-- Dict lookup. -/
def dict_get : List (String × String) → String → Option String
  | [], _ => none
  | p :: t, k => if p.1 == k then some p.2 else dict_get t k

/-- The mutable context of the shared `BELParser.control_parser`: citation,
evidence text and the annotation dict. -/
structure ParserState where
  citation : Option Citation
  evidence : Option String
  annotations : List (String × String)
deriving Repr, DecidableEq

/-- One edge added to the BEL graph by a successful `parseString` call: the
parsed statement string together with the context the control parser held at
parse time (which the parser attaches to the edge). -/
structure GraphEdge where
  bel : String
  line_number : Nat
  citation : Option Citation
  evidence : Option String
  annotations : List (String × String)
deriving Repr, DecidableEq

/-- The BEL graph as this ingester touches it: added edges and the warning
list fed by `graph.add_warning`. -/
structure BELGraph where
  edges : List GraphEdge
  warnings : List (Nat × String)
deriving Repr, DecidableEq

/-- The `annotations` dict built by `process_row` before
`control_parser.annotations.update(annotations)`: `Curator` and the fixed
`Confidence='Medium'`, plus the three INDRA keys when their columns exist. -/
def row_annotations (row : IngestRow) : List (String × String) :=
  [("Curator", row.curator), ("Confidence", "Medium")]
    ++ (match row.indra_uuid with | some u => [("INDRA_UUID", u)] | none => [])
    ++ (match row.belief with | some b => [("INDRA_Belief", b)] | none => [])
    ++ (match row.api with | some a => [("INDRA_API", a)] | none => [])

/-- `row['Citation Reference'] if 'Citation Reference' in row else
row['PMID']`; `none` models the `KeyError` raised when both columns are
absent. -/
def resolve_reference (row : IngestRow) : Option String :=
  match row.citation_reference with
  | some v => some v
  | none => row.pmid

/-- `process_row`.  The external `BELParser.parseString` collaborator is the
`parse` parameter: `none` models a successful parse, which adds one edge
carrying the control parser's current citation/evidence/annotation context;
`some msg` models a raised `BELParserWarning`/`ParseException`, which
`process_row` catches and converts to a graph warning keyed by the line.
`Except.error` models the exceptions `process_row` itself lets escape: the
explicit `Exception('missing reference')` and the `KeyError` when neither
citation column exists. -/
def process_row (parse : String → Nat → Option String)
    (state : ParserState × BELGraph) (row : IngestRow) (line_number : Nat) :
    Except String (ParserState × BELGraph) :=
  let (ps, graph) := state
  if !truthy row.checked then .ok (ps, graph)
  else if !(truthy row.correct || truthy row.changed) then .ok (ps, graph)
  else
    match resolve_reference row with
    | none => .error "KeyError: PMID"
    | some reference =>
      if reference = "" then .error "missing reference"
      else
        let ps := { ps with citation := some ⟨CITATION_TYPE_PUBMED, reference⟩ }
        let ps := { ps with evidence := some row.evidence }
        let ps := { ps with annotations := dict_update ps.annotations (row_annotations row) }
        let bel := row.subject ++ " " ++ row.predicate ++ " " ++ row.object
        match parse bel line_number with
        | none =>
          .ok (ps, { graph with
            edges := graph.edges ++
              [⟨bel, line_number, ps.citation, ps.evidence, ps.annotations⟩] })
        | some warning =>
          .ok (ps, { graph with warnings := graph.warnings ++ [(line_number, warning)] })

/-! ### Order instances for the row sort key -/

instance : IsTotal Row row_le := by
  constructor
  intro a b
  rcases lt_trichotomy a.uuid.toList b.uuid.toList with h | h | h
  · exact Or.inl (Or.inl h)
  · have huuid : a.uuid = b.uuid := String.toList_inj.mp h
    rcases le_total a.pmid.toList b.pmid.toList with hp | hp
    · exact Or.inl (Or.inr ⟨huuid, hp⟩)
    · exact Or.inr (Or.inr ⟨huuid.symm, hp⟩)
  · exact Or.inr (Or.inl h)

instance : IsTrans Row row_le := by
  constructor
  rintro a b c (hab | ⟨hab, hab2⟩) (hbc | ⟨hbc, hbc2⟩)
  · exact Or.inl (lt_trans hab hbc)
  · exact Or.inl (by rw [← hbc]; exact hab)
  · exact Or.inl (by rw [hab]; exact hbc)
  · exact Or.inr ⟨hab.trans hbc, le_trans hab2 hbc2⟩

/-! ### Concrete rows, sheets and statements used by the closed theorems -/

/-- A row whose `Checked`, `Correct` and `Changed` cells are all non-null. -/
def ttt_row : SheetRow :=
  { curator := some "c", checked := some "x", correct := some "x",
    changed := some "x", evidence := some "ev", predicate := none,
    errorType := none }

/-- A fully blank row (nothing curated yet). -/
def blank_row : SheetRow :=
  { curator := some "c", checked := none, correct := none, changed := none,
    evidence := some "ev", predicate := none, errorType := none }

/-- A row whose `Evidence` cell is the boilerplate placeholder and whose
`Error Type` cell carries a tag. -/
def placeholder_row : SheetRow :=
  { curator := some "c", checked := some "x", correct := none, changed := none,
    evidence := some "No evidence text.", predicate := none,
    errorType := some "Curation" }

/-- A sheet missing the required `Curator` column. -/
def headerless_sheet : ReadResult :=
  .sheet ["Checked", "Correct", "Changed"] [ttt_row]

/-- A sheet with all required columns and one fully curated row. -/
def wellformed_sheet : ReadResult :=
  .sheet ["Curator", "Checked", "Correct", "Changed"] [ttt_row]

/-- Two rows whose uuid order is opposite to their (pmid, evidence) order
while pmid and evidence coincide. -/
def row_sort_a : Row :=
  { uuid := "b", statement_hash := "h", evidence_hash := "eh", api := "reach",
    belief := 1, pmid := "100", evidence := "text", bel_subject := "s",
    bel_relation := "increases", bel_object := "o" }

/-- Companion of `row_sort_a` with the smaller uuid. -/
def row_sort_b : Row :=
  { uuid := "a", statement_hash := "h", evidence_hash := "eh", api := "reach",
    belief := 1, pmid := "100", evidence := "text", bel_subject := "s",
    bel_relation := "increases", bel_object := "o" }

/-- A surviving evidence record. -/
def evidence_one : Evidence :=
  ⟨"100", "first text", "reach"⟩

/-- A second surviving evidence record. -/
def evidence_two : Evidence :=
  ⟨"200", "second text", "sparser"⟩

/-- A statement whose three evidences all pass the evidence filter. -/
def multi_evidence_statement : Statement :=
  ⟨"u1", "sh1", 1/2, [evidence_one, evidence_two, ⟨"300", "third text", "trips"⟩]⟩

/-- A rendering collaborator that produces two renderable (qualified,
citation-bearing, blacklist-free) edges per evidence of the statement. -/
def two_edge_render (s : Statement) : List Edge :=
  s.evidence.flatMap fun e =>
    [⟨"increases", "p(HGNC:391 ! AKT1)", "increases", "p(HGNC:392 ! AKT2)",
      some e.pmid, e.text, "u1", "sh1", "evh1", e.source_api⟩,
     ⟨"increases", "p(HGNC:391 ! AKT1)", "increases", "p(HGNC:393 ! AKT3)",
      some e.pmid, e.text, "u1", "sh1", "evh2", e.source_api⟩]

/-- An ingest row passing both gates whose `Citation Reference` cell is
empty. -/
def empty_reference_row : IngestRow :=
  { checked := .str "x", correct := .str "x", changed := .nan, curator := "c",
    evidence := "ev", subject := "p(HGNC:391 ! AKT1)", predicate := "increases",
    object := "p(HGNC:392 ! AKT2)", citation_reference := some "",
    pmid := some "100", indra_uuid := none, belief := none, api := none }

/-- An ingest row whose `Checked` cell holds a Python-falsy value (an empty
string). -/
def falsy_checked_row : IngestRow :=
  { checked := .str "", correct := .str "x", changed := .str "", curator := "c",
    evidence := "ev", subject := "p(HGNC:391 ! AKT1)", predicate := "increases",
    object := "p(HGNC:392 ! AKT2)", citation_reference := none,
    pmid := some "100", indra_uuid := none, belief := none, api := none }

/-- A not-yet-curated row as a generated template sheet holds it: the
provenance/statement columns are pre-filled, while the three checkbox cells
are blank and therefore arrive from pandas as (truthy) `NaN`. -/
def blank_checked_row : IngestRow :=
  { checked := .nan, correct := .nan, changed := .nan, curator := "c",
    evidence := "ev", subject := "p(HGNC:391 ! AKT1)", predicate := "increases",
    object := "p(HGNC:392 ! AKT2)", citation_reference := none,
    pmid := some "12345", indra_uuid := none, belief := none, api := none }

/-- An ingest row passing both gates that lacks the three INDRA columns. -/
def followup_row : IngestRow :=
  { checked := .str "x", correct := .str "x", changed := .nan, curator := "c2",
    evidence := "ev2", subject := "p(HGNC:391 ! AKT1)", predicate := "increases",
    object := "p(HGNC:392 ! AKT2)", citation_reference := none,
    pmid := some "200", indra_uuid := none, belief := none, api := none }

/-- A parser state as left by an earlier row that carried an `INDRA UUID`
column. -/
def annotated_state : ParserState :=
  { citation := some ⟨CITATION_TYPE_PUBMED, "100"⟩, evidence := some "ev1",
    annotations := [("Curator", "c1"), ("Confidence", "Medium"),
                    ("INDRA_UUID", "uuid-1")] }

/-! ## Theorems -/

/-- C1, counterexample: a row with Checked, Correct and Changed all non-null
takes the `checked and changed` branch of the classifier, which increments
ModifiedByCurator — it does not reach the conflict branch, so the claim that
such a row is logged as a conflict and counted in no bucket is false. -/
theorem C1_counterexample :
    classify true true true = Branch.modifiedByCurator ∧
    classify true true true ≠ Branch.conflict ∧
    report_row_step none CurationResults.empty ttt_row =
      .ok { notCurated := 0, error := 0, correct := 0,
            errorButAlsoOtherStatement := 0, modifiedByCurator := 1, total := 1 } := by
  decide

/-- C1, amended: a sheet row processed by the curation-outcome classifier
whose Checked, Correct and Changed cells are all non-null increments
ModifiedByCurator (and no other outcome count) and increments Total; the
conflict branch is not taken for this triple. -/
theorem C1_all_ticked_counts_modified (row : SheetRow) (res : CurationResults)
    (hev : row.evidence ≠ some NO_EVIDENCE_TEXT)
    (hc : pd_notnull row.checked = true) (hco : pd_notnull row.correct = true)
    (hch : pd_notnull row.changed = true) :
    report_row_step none res row =
      .ok { res with modifiedByCurator := res.modifiedByCurator + 1,
                     total := res.total + 1 } := by
  simp [report_row_step, hev, report_row_classify, hc, hco, hch, classify, Branch.apply]

/-- C1, witness: the amended theorem applied to the all-ticked concrete row. -/
theorem C1_witness :
    report_row_step none CurationResults.empty ttt_row =
      .ok { CurationResults.empty with
            modifiedByCurator := CurationResults.empty.modifiedByCurator + 1,
            total := CurationResults.empty.total + 1 } :=
  C1_all_ticked_counts_modified ttt_row CurationResults.empty (by decide) (by decide)
    (by decide) (by decide)

/-- C4, counterexample: a row whose Evidence cell is the boilerplate
placeholder but whose Error Type cell is non-null still contributes to the
error-type-count table (`generate_error_types` never looks at Evidence), so
the claim that such a row contributes to neither table is false. -/
theorem C4_counterexample :
    placeholder_row.evidence = some NO_EVIDENCE_TEXT ∧
    (generate_error_types [placeholder_row]).1 = [("curation", 1)] ∧
    (generate_error_types [placeholder_row]).1 ≠ [] := by
  decide

/-- C4, amended: a row whose Evidence cell equals the boilerplate placeholder
is excluded before classification — it increments no outcome bucket and not
Total, for any edge-type filter — while the error-type tally ignores the
Evidence cell entirely (it depends only on the Error Type cell). -/
theorem C4_placeholder_skips_classification (edgeTypeFilter : Option String)
    (res : CurationResults) (row : SheetRow)
    (hev : row.evidence = some NO_EVIDENCE_TEXT) :
    report_row_step edgeTypeFilter res row = .ok res ∧
    ∀ (m : List (String × Nat)) (r2 : SheetRow), r2.errorType = row.errorType →
      error_types_row_step m r2 = error_types_row_step m row := by
  constructor
  · simp [report_row_step, hev]
  · intro m r2 h
    simp [error_types_row_step, h]

/-- C4, witness: the amended theorem applied to the concrete placeholder
row. -/
theorem C4_witness :
    report_row_step none CurationResults.empty placeholder_row = .ok CurationResults.empty ∧
    ∀ (m : List (String × Nat)) (r2 : SheetRow), r2.errorType = placeholder_row.errorType →
      error_types_row_step m r2 = error_types_row_step m placeholder_row :=
  C4_placeholder_skips_classification none CurationResults.empty placeholder_row (by decide)

/-- C5: the curation-outcome classifier maps the presence-triple of a
non-skipped row exactly as claimed: (F,F,F) increments NotCurated,
(T,F,F) Error, (*,T,F) Correct for either Checked value, (T,F,T)
ModifiedByCurator and (F,F,T) ErrorButOtherStatementIdentified; in every
case exactly that bucket and Total are incremented. -/
theorem C5_transition_table (row : SheetRow) (res : CurationResults)
    (hev : row.evidence ≠ some NO_EVIDENCE_TEXT) :
    (pd_notnull row.checked = false → pd_notnull row.correct = false →
        pd_notnull row.changed = false →
      report_row_step none res row =
        .ok { res with notCurated := res.notCurated + 1, total := res.total + 1 }) ∧
    (pd_notnull row.checked = true → pd_notnull row.correct = false →
        pd_notnull row.changed = false →
      report_row_step none res row =
        .ok { res with error := res.error + 1, total := res.total + 1 }) ∧
    (pd_notnull row.correct = true → pd_notnull row.changed = false →
      report_row_step none res row =
        .ok { res with correct := res.correct + 1, total := res.total + 1 }) ∧
    (pd_notnull row.checked = true → pd_notnull row.correct = false →
        pd_notnull row.changed = true →
      report_row_step none res row =
        .ok { res with modifiedByCurator := res.modifiedByCurator + 1,
                       total := res.total + 1 }) ∧
    (pd_notnull row.checked = false → pd_notnull row.correct = false →
        pd_notnull row.changed = true →
      report_row_step none res row =
        .ok { res with errorButAlsoOtherStatement := res.errorButAlsoOtherStatement + 1,
                       total := res.total + 1 }) := by
  refine ⟨?_, ?_, ?_, ?_, ?_⟩
  · intro h1 h2 h3
    simp [report_row_step, hev, report_row_classify, h1, h2, h3, classify, Branch.apply]
  · intro h1 h2 h3
    simp [report_row_step, hev, report_row_classify, h1, h2, h3, classify, Branch.apply]
  · intro h2 h3
    cases h1 : pd_notnull row.checked <;>
      simp [report_row_step, hev, report_row_classify, h1, h2, h3, classify, Branch.apply]
  · intro h1 h2 h3
    simp [report_row_step, hev, report_row_classify, h1, h2, h3, classify, Branch.apply]
  · intro h1 h2 h3
    simp [report_row_step, hev, report_row_classify, h1, h2, h3, classify, Branch.apply]

/-- C5, witness: the transition-table theorem applied to the blank concrete
row. -/
theorem C5_witness :
    (pd_notnull blank_row.checked = false → pd_notnull blank_row.correct = false →
        pd_notnull blank_row.changed = false →
      report_row_step none CurationResults.empty blank_row =
        .ok { CurationResults.empty with
              notCurated := CurationResults.empty.notCurated + 1,
              total := CurationResults.empty.total + 1 }) ∧
    (pd_notnull blank_row.checked = true → pd_notnull blank_row.correct = false →
        pd_notnull blank_row.changed = false →
      report_row_step none CurationResults.empty blank_row =
        .ok { CurationResults.empty with
              error := CurationResults.empty.error + 1,
              total := CurationResults.empty.total + 1 }) ∧
    (pd_notnull blank_row.correct = true → pd_notnull blank_row.changed = false →
      report_row_step none CurationResults.empty blank_row =
        .ok { CurationResults.empty with
              correct := CurationResults.empty.correct + 1,
              total := CurationResults.empty.total + 1 }) ∧
    (pd_notnull blank_row.checked = true → pd_notnull blank_row.correct = false →
        pd_notnull blank_row.changed = true →
      report_row_step none CurationResults.empty blank_row =
        .ok { CurationResults.empty with
              modifiedByCurator := CurationResults.empty.modifiedByCurator + 1,
              total := CurationResults.empty.total + 1 }) ∧
    (pd_notnull blank_row.checked = false → pd_notnull blank_row.correct = false →
        pd_notnull blank_row.changed = true →
      report_row_step none CurationResults.empty blank_row =
        .ok { CurationResults.empty with
              errorButAlsoOtherStatement := CurationResults.empty.errorButAlsoOtherStatement + 1,
              total := CurationResults.empty.total + 1 }) :=
  C5_transition_table blank_row CurationResults.empty (by decide)

/-- C6: the evidence filter rejects an evidence record exactly when its
document id is empty, its text is empty or blacklisted, or its source API is
empty or blacklisted; the filter is a pure Boolean predicate by
construction. -/
theorem C6_keep_evidence_false_iff (e : Evidence) :
    keep_evidence e = false ↔
      e.pmid = "" ∨ e.text = "" ∨ e.text ∈ TEXT_BLACKLIST ∨
        e.source_api = "" ∨ e.source_api ∈ SOURCE_BLACKLIST := by
  simp [keep_evidence, TEXT_BLACKLIST, SOURCE_BLACKLIST]
  tauto

/-- Rows sharing the (uuid, pmid) sort key compare `row_le` in either
direction. -/
theorem row_le_of_same_key {u p : String} {a b : Row}
    (ha : same_key u p a = true) (hb : same_key u p b = true) : row_le a b := by
  simp [same_key] at ha hb
  right
  refine ⟨?_, ?_⟩
  · rw [ha.1, hb.1]
  · rw [ha.2, hb.2]

/-- Ordered insertion of a key-`(u, p)` row places it in front of every
other key-`(u, p)` row already present. -/
theorem filter_orderedInsert_same_key (u p : String) (a : Row)
    (ha : same_key u p a = true) (l : List Row) :
    (List.orderedInsert row_le a l).filter (same_key u p) =
      a :: l.filter (same_key u p) := by
  induction l with
  | nil => simp [ha]
  | cons b t ih =>
    by_cases hab : row_le a b
    · simp [List.orderedInsert, hab, List.filter_cons, ha]
    · have hb : same_key u p b = false := by
        cases hcon : same_key u p b
        · rfl
        · exact absurd (row_le_of_same_key ha hcon) hab
      simp [List.orderedInsert, hab, List.filter_cons, hb, ih]

/-- Ordered insertion of a row with a different key leaves the key-`(u, p)`
sublist unchanged. -/
theorem filter_orderedInsert_not_same_key (u p : String) (a : Row)
    (ha : same_key u p a = false) (l : List Row) :
    (List.orderedInsert row_le a l).filter (same_key u p) =
      l.filter (same_key u p) := by
  induction l with
  | nil => simp [ha]
  | cons b t ih =>
    by_cases hab : row_le a b
    · simp [List.orderedInsert, hab, List.filter_cons, ha]
    · simp [List.orderedInsert, hab, List.filter_cons, ih]

/-- Stability of the row sort: the sublist of rows with any fixed
(uuid, pmid) key is preserved by `insertionSort`. -/
theorem filter_insertionSort_same_key (u p : String) (l : List Row) :
    (List.insertionSort row_le l).filter (same_key u p) =
      l.filter (same_key u p) := by
  induction l with
  | nil => rfl
  | cons a t ih =>
    cases ha : same_key u p a
    · rw [List.insertionSort, filter_orderedInsert_not_same_key u p a ha]
      simp [List.filter_cons, ha, ih]
    · rw [List.insertionSort, filter_orderedInsert_same_key u p a ha]
      simp [List.filter_cons, ha, ih]

/-- C2, counterexample: two rows with identical document id (pmid) and
evidence text are reordered by the statement-set processor's sort, because
the sort key is `('uuid', 'pmid')`, not (document id, evidence text): the
row with the larger uuid moves behind despite coming first in projection
order. -/
theorem C2_counterexample :
    row_sort_a.pmid = row_sort_b.pmid ∧ row_sort_a.evidence = row_sort_b.evidence ∧
    sort_rows [row_sort_a, row_sort_b] = [row_sort_b, row_sort_a] := by
  decide

/-- C2, amended: the row sequence returned by the statement-set processor
(without a limit) is sorted by the composite key (uuid, then pmid), and the
sort is stable: for every fixed (uuid, pmid) key, the rows carrying that key
appear in their projection order, so two statements differing only in belief
keep their projection order. -/
theorem C2_sorted_by_uuid_then_pmid (render : Statement → List Edge)
    (statements : List Statement) (allow_duplicates : Bool)
    (keep_only_pmids : Option (List String)) :
    List.Sorted row_le
      (print_statements_rows render statements allow_duplicates keep_only_pmids none) ∧
    ∀ u p : String,
      (print_statements_rows render statements allow_duplicates keep_only_pmids none).filter
          (same_key u p) =
        (statements.flatMap fun s =>
          get_rows_from_statement render s allow_duplicates keep_only_pmids).filter
          (same_key u p) := by
  constructor
  · exact List.sorted_insertionSort row_le _
  · intro u p
    exact filter_insertionSort_same_key u p _

/-- C3, counterexample: a statement with three surviving evidences whose
renderer produces two renderable edges per evidence yields two rows under
`allow_duplicates=False` — both derived from the first evidence — so the
claim that at most one Row is produced is false. -/
theorem C3_counterexample :
    (get_rows_from_statement two_edge_render multi_evidence_statement false none).length = 2 ∧
    ¬ (get_rows_from_statement two_edge_render multi_evidence_statement false none).length ≤ 1 := by
  decide

/-- C3, amended: with `allow_duplicates=False` (and no pmid restriction) the
projection of a statement depends only on its first surviving evidence: it
is empty when no evidence survives the filter, and otherwise equals the edge
rows of the statement restricted to exactly that first surviving evidence —
regardless of how many evidences survived. -/
theorem C3_only_first_surviving_evidence (render : Statement → List Edge)
    (statement : Statement) :
    get_rows_from_statement render statement false none =
      match statement.evidence.filter keep_evidence with
      | [] => []
      | e :: _ => rows_from_statement_edges render { statement with evidence := [e] } := by
  cases hl : statement.evidence.filter keep_evidence with
  | nil => simp [get_rows_from_statement, hl]
  | cons e t => simp [get_rows_from_statement, hl]

/-- With no edge-type filter the per-row report step never raises. -/
theorem report_row_step_none_ok (res : CurationResults) (row : SheetRow) :
    report_row_step none res row =
      .ok (if row.evidence = some NO_EVIDENCE_TEXT then res
           else report_row_classify res row) := by
  by_cases h : row.evidence = some NO_EVIDENCE_TEXT <;> simp [report_row_step, h]

/-- With no edge-type filter the report row loop always succeeds. -/
theorem foldlM_report_rows_ok (rows : List SheetRow) :
    ∀ res : CurationResults,
      ∃ r, rows.foldlM (report_row_step none) res = Except.ok r := by
  induction rows with
  | nil => intro res; exact ⟨res, rfl⟩
  | cons row t ih =>
    intro res
    rw [List.foldlM_cons, report_row_step_none_ok]
    simpa using ih _

/-- An unreadable sheet contributes an empty outcome row, a log line naming
its path, and no error-type row. -/
theorem summary_sheet_step_unreadable (acc : Summary) (path : String) :
    summary_sheet_step none acc (path, .unreadable) =
      .ok { acc with
            summaryRows := acc.summaryRows ++ [(gene_symbol path, CurationResults.empty)],
            logs := acc.logs ++ ["Missing sheet, skipping curation report for " ++ path] } := by
  simp [summary_sheet_step, generate_curation_report, CurationResults.isEmpty,
    CurationResults.empty]

/-- A sheet passing the header check (or unreadable) never aborts the
summary step: it adds exactly one outcome row, preserves the log, and an
unreadable sheet logs its path. -/
theorem summary_sheet_step_ok (acc : Summary) (path : String) (rd : ReadResult)
    (h : sheet_header_ok rd = true) :
    ∃ acc2 : Summary, summary_sheet_step none acc (path, rd) = .ok acc2 ∧
      acc2.summaryRows.length = acc.summaryRows.length + 1 ∧
      (∀ l ∈ acc.logs, l ∈ acc2.logs) ∧
      (rd = .unreadable →
        ("Missing sheet, skipping curation report for " ++ path) ∈ acc2.logs) := by
  cases rd with
  | unreadable =>
    refine ⟨_, summary_sheet_step_unreadable acc path, ?_, ?_, ?_⟩
    · simp
    · intro l hl
      simp [hl]
    · simp
  | sheet cols rows =>
    have hc : check_curation_template_columns cols = true := by
      simpa [sheet_header_ok] using h
    obtain ⟨r, hr⟩ := foldlM_report_rows_ok rows CurationResults.empty
    by_cases he : r.isEmpty
    · refine ⟨{ acc with
          summaryRows := acc.summaryRows ++ [(gene_symbol path, r)],
          logs := acc.logs ++ ["Missing sheet, skipping curation report for " ++ path] },
        ?_, by simp, ?_, ?_⟩
      · simp [summary_sheet_step, generate_curation_report, hc, hr, he]
      · intro l hl
        simp [hl]
      · intro hcon; cases hcon
    · refine ⟨{ acc with
          summaryRows := acc.summaryRows ++ [(gene_symbol path, r)],
          errorRows := acc.errorRows ++ [(gene_symbol path, (generate_error_types rows).1)] },
        ?_, by simp, ?_, ?_⟩
      · simp [summary_sheet_step, generate_curation_report, hc, hr, he, ReadResult.rows]
      · intro l hl
        simp [hl]
      · intro hcon; cases hcon

/-- Folding the summary over sheets that all pass the header check (or are
unreadable) succeeds, yields one outcome row per sheet, keeps earlier logs,
and logs every unreadable path. -/
theorem summary_fold_ok (sheets : List (String × ReadResult)) :
    ∀ acc : Summary, (∀ e ∈ sheets, sheet_header_ok e.2 = true) →
      ∃ s : Summary, sheets.foldlM (summary_sheet_step none) acc = .ok s ∧
        s.summaryRows.length = acc.summaryRows.length + sheets.length ∧
        (∀ l ∈ acc.logs, l ∈ s.logs) ∧
        (∀ path, (path, ReadResult.unreadable) ∈ sheets →
          ("Missing sheet, skipping curation report for " ++ path) ∈ s.logs) := by
  induction sheets with
  | nil =>
    intro acc _
    exact ⟨acc, rfl, by simp, fun l hl => hl, by simp⟩
  | cons e t ih =>
    intro acc h
    obtain ⟨path, rd⟩ := e
    obtain ⟨acc2, hstep, hlen, hlog, hunread⟩ :=
      summary_sheet_step_ok acc path rd (h (path, rd) (by simp))
    obtain ⟨s, hfold, hslen, hslog, hsunread⟩ :=
      ih acc2 (fun e he => h e (List.mem_cons_of_mem _ he))
    refine ⟨s, ?_, ?_, ?_, ?_⟩
    · rw [List.foldlM_cons, hstep]
      simpa using hfold
    · rw [hslen, hlen]
      simp [List.length_cons]
      omega
    · exact fun l hl => hslog l (hlog l hl)
    · intro p hp
      rcases List.mem_cons.mp hp with hp | hp
      · cases hp
        exact hslog _ (hunread rfl)
      · exact hsunread p hp

/-- C7, counterexample: a sheet missing the required Curator column makes
`generate_curation_summary` raise the header `ValueError`, aborting the whole
summary — the remaining well-formed sheet is never processed and no table is
produced, so the claim that such a sheet is merely logged and skipped is
false. -/
theorem C7_counterexample :
    generate_curation_summary none
        [("sheets/GENE1/curated.xlsx", headerless_sheet),
         ("sheets/GENE2/curated.xlsx", wellformed_sheet)] =
      .error "sheets/GENE1/curated.xlsx has a problem with the header" := by
  decide

/-- C7, amended: an unreadable sheet only loses its own contribution — the
summary still succeeds, every sheet (including the unreadable one, as an
all-zero row) contributes one outcome row, and a log line naming the
unreadable path is emitted; a sheet missing a required column, by contrast,
raises and aborts the whole summary (see the counterexample). -/
theorem C7_sheet_failures (sheets : List (String × ReadResult))
    (h : ∀ e ∈ sheets, sheet_header_ok e.2 = true) :
    ∃ s : Summary, generate_curation_summary none sheets = .ok s ∧
      s.summaryRows.length = sheets.length ∧
      ∀ path, (path, ReadResult.unreadable) ∈ sheets →
        ("Missing sheet, skipping curation report for " ++ path) ∈ s.logs := by
  obtain ⟨s, hfold, hlen, _, hunread⟩ := summary_fold_ok sheets Summary.empty h
  exact ⟨s, hfold, by simpa [Summary.empty] using hlen, hunread⟩

/-- C7, witness: the amended theorem applied to an unreadable sheet followed
by a well-formed one. -/
theorem C7_witness :
    ∃ s : Summary, generate_curation_summary none
        [("sheets/GENE3/curated.xlsx", ReadResult.unreadable),
         ("sheets/GENE2/curated.xlsx", wellformed_sheet)] = .ok s ∧
      s.summaryRows.length =
        [("sheets/GENE3/curated.xlsx", ReadResult.unreadable),
         ("sheets/GENE2/curated.xlsx", wellformed_sheet)].length ∧
      ∀ path, (path, ReadResult.unreadable) ∈
          [("sheets/GENE3/curated.xlsx", ReadResult.unreadable),
           ("sheets/GENE2/curated.xlsx", wellformed_sheet)] →
        ("Missing sheet, skipping curation report for " ++ path) ∈ s.logs :=
  C7_sheet_failures _ (by decide)

/-- C9, counterexample: a row whose checkbox cells are blank reaches
`process_row` as `NaN` cells, and `bool(float('nan'))` is `True`, so neither
gate fires: the row is ingested — the parser context is mutated and an edge
is added — refuting the claim that a row with an empty Checked cell is
returned from unchanged. -/
theorem C9_counterexample :
    truthy blank_checked_row.checked = true ∧
    process_row (fun _ _ => none)
        (⟨none, none, []⟩, ⟨[], []⟩) blank_checked_row 3 ≠
      .ok (⟨none, none, []⟩, ⟨[], []⟩) := by
  decide

/-- C9, amended: a row whose Checked cell holds a Python-falsy value, or
whose Correct and Changed cells both hold Python-falsy values, is returned
from unchanged: the parser context, the graph's edges and its warnings are
exactly as before, and no exception is raised.  (A blank cell is excluded:
pandas delivers it as `NaN`, which is truthy, so it passes both gates — see
the counterexample.) -/
theorem C9_gate_skips_row (parse : String → Nat → Option String)
    (state : ParserState × BELGraph) (row : IngestRow) (ln : Nat)
    (h : truthy row.checked = false ∨
      (truthy row.correct = false ∧ truthy row.changed = false)) :
    process_row parse state row ln = .ok state := by
  obtain ⟨ps, g⟩ := state
  rcases h with h | ⟨h1, h2⟩
  · simp [process_row, h]
  · cases hc : truthy row.checked <;> simp [process_row, hc, h1, h2]

/-- C9, witness: the gate theorem applied to the concrete row whose Checked
cell is an empty string. -/
theorem C9_witness :
    process_row (fun _ _ => none)
      (⟨none, none, []⟩, ⟨[], []⟩) falsy_checked_row 3 = .ok (⟨none, none, []⟩, ⟨[], []⟩) :=
  C9_gate_skips_row _ _ falsy_checked_row 3 (Or.inl (by decide))

/-- C8: for a row passing the Checked and Correct/Changed gates, the
citation is resolved from the Citation Reference column when present and
from the PMID column otherwise; when the resolved value is missing or empty
the ingester raises (the `KeyError` or the `missing reference` exception)
instead of warning or skipping, and when it is non-empty the parser's
citation context is set to a PubMed citation with that reference. -/
theorem C8_reference_resolution (parse : String → Nat → Option String)
    (ps : ParserState) (g : BELGraph) (row : IngestRow) (ln : Nat)
    (h1 : truthy row.checked = true)
    (h2 : truthy row.correct = true ∨ truthy row.changed = true) :
    (row.citation_reference = none → resolve_reference row = row.pmid) ∧
    (∀ v, row.citation_reference = some v → resolve_reference row = some v) ∧
    ((resolve_reference row = none ∨ resolve_reference row = some "") →
      process_row parse (ps, g) row ln = .error "KeyError: PMID" ∨
      process_row parse (ps, g) row ln = .error "missing reference") ∧
    (∀ v, resolve_reference row = some v → v ≠ "" →
      ∃ ps2 g2, process_row parse (ps, g) row ln = .ok (ps2, g2) ∧
        ps2.citation = some ⟨CITATION_TYPE_PUBMED, v⟩) := by
  have h2b : (truthy row.correct || truthy row.changed) = true := by
    rcases h2 with h | h <;> simp [h]
  refine ⟨?_, ?_, ?_, ?_⟩
  · intro h
    simp [resolve_reference, h]
  · intro v h
    simp [resolve_reference, h]
  · rintro (hres | hres)
    · left
      simp [process_row, h1, h2b, hres]
    · right
      simp [process_row, h1, h2b, hres]
  · intro v hv hvne
    cases hp : parse (row.subject ++ " " ++ row.predicate ++ " " ++ row.object) ln with
    | none =>
      refine ⟨{ citation := some ⟨CITATION_TYPE_PUBMED, v⟩, evidence := some row.evidence,
                annotations := dict_update ps.annotations (row_annotations row) },
              { g with edges := g.edges ++
                  [⟨row.subject ++ " " ++ row.predicate ++ " " ++ row.object, ln,
                    some ⟨CITATION_TYPE_PUBMED, v⟩, some row.evidence,
                    dict_update ps.annotations (row_annotations row)⟩] }, ?_, rfl⟩
      simp [process_row, h1, h2b, hv, hvne, hp]
    | some w =>
      refine ⟨{ citation := some ⟨CITATION_TYPE_PUBMED, v⟩, evidence := some row.evidence,
                annotations := dict_update ps.annotations (row_annotations row) },
              { g with warnings := g.warnings ++ [(ln, w)] }, ?_, rfl⟩
      simp [process_row, h1, h2b, hv, hvne, hp]

/-- C8, witness: the resolution theorem applied to the concrete row whose
Citation Reference cell is empty. -/
theorem C8_witness :
    (empty_reference_row.citation_reference = none →
      resolve_reference empty_reference_row = empty_reference_row.pmid) ∧
    (∀ v, empty_reference_row.citation_reference = some v →
      resolve_reference empty_reference_row = some v) ∧
    ((resolve_reference empty_reference_row = none ∨
        resolve_reference empty_reference_row = some "") →
      process_row (fun _ _ => none) (⟨none, none, []⟩, ⟨[], []⟩) empty_reference_row 7 =
          .error "KeyError: PMID" ∨
      process_row (fun _ _ => none) (⟨none, none, []⟩, ⟨[], []⟩) empty_reference_row 7 =
          .error "missing reference") ∧
    (∀ v, resolve_reference empty_reference_row = some v → v ≠ "" →
      ∃ ps2 g2, process_row (fun _ _ => none)
          (⟨none, none, []⟩, ⟨[], []⟩) empty_reference_row 7 = .ok (ps2, g2) ∧
        ps2.citation = some ⟨CITATION_TYPE_PUBMED, v⟩) :=
  C8_reference_resolution (fun _ _ => none) ⟨none, none, []⟩ ⟨[], []⟩ empty_reference_row 7
    (by decide) (Or.inl (by decide))

/-- Setting one dict key leaves every other key's lookup unchanged. -/
theorem dict_get_dict_set_ne (m : List (String × String)) (kk v k : String)
    (h : kk ≠ k) : dict_get (dict_set m kk v) k = dict_get m k := by
  induction m with
  | nil => simp [dict_set, dict_get, h]
  | cons p t ih =>
    by_cases hp : (p.1 == kk) = true
    · have hp1 : p.1 = kk := by simpa using hp
      simp [dict_set, hp, dict_get, hp1, h]
    · simp [dict_set, hp, dict_get, ih]

/-- `dict.update` with keys all different from `k` leaves `k`'s lookup
unchanged — update never clears an existing entry. -/
theorem dict_get_dict_update_of_not_mem (kvs : List (String × String)) :
    ∀ (m : List (String × String)) (k : String), (∀ kv ∈ kvs, kv.1 ≠ k) →
      dict_get (dict_update m kvs) k = dict_get m k := by
  induction kvs with
  | nil => intro m k _; rfl
  | cons kv t ih =>
    intro m k h
    have hstep : dict_update m (kv :: t) = dict_update (dict_set m kv.1 kv.2) t := rfl
    rw [hstep, ih (dict_set m kv.1 kv.2) k (fun p hp => h p (List.mem_cons_of_mem _ hp)),
      dict_get_dict_set_ne _ _ _ _ (h kv (by simp))]

/-- A row lacking the column of one of the three optional INDRA annotations
never writes that annotation key. -/
theorem row_annotations_no_key (row : IngestRow) (k : String)
    (hk : (k = "INDRA_UUID" ∧ row.indra_uuid = none) ∨
          (k = "INDRA_Belief" ∧ row.belief = none) ∨
          (k = "INDRA_API" ∧ row.api = none)) :
    ∀ kv ∈ row_annotations row, kv.1 ≠ k := by
  rcases hk with ⟨hk, hn⟩ | ⟨hk, hn⟩ | ⟨hk, hn⟩ <;> subst hk
  · cases hb : row.belief <;> cases ha : row.api <;>
      simp [row_annotations, hn, hb, ha]
  · cases hu : row.indra_uuid <;> cases ha : row.api <;>
      simp [row_annotations, hn, hu, ha]
  · cases hu : row.indra_uuid <;> cases hb : row.belief <;>
      simp [row_annotations, hn, hu, hb]

/-- C10: the ingester only updates the shared annotation context, never
clears it: an INDRA annotation already present in the context survives the
ingestion of a later row lacking the corresponding column, and is attached
to the edge parsed from that row. -/
theorem C10_annotation_persists (parse : String → Nat → Option String)
    (ps : ParserState) (g : BELGraph) (row : IngestRow) (ln : Nat) (k v : String)
    (hk : (k = "INDRA_UUID" ∧ row.indra_uuid = none) ∨
          (k = "INDRA_Belief" ∧ row.belief = none) ∨
          (k = "INDRA_API" ∧ row.api = none))
    (hset : dict_get ps.annotations k = some v)
    (h1 : truthy row.checked = true)
    (h2 : truthy row.correct = true ∨ truthy row.changed = true)
    (r : String) (href : resolve_reference row = some r) (hrne : r ≠ "")
    (hparse : parse (row.subject ++ " " ++ row.predicate ++ " " ++ row.object) ln = none) :
    ∃ (ps2 : ParserState) (e : GraphEdge),
      process_row parse (ps, g) row ln = .ok (ps2, { g with edges := g.edges ++ [e] }) ∧
      dict_get ps2.annotations k = some v ∧
      dict_get e.annotations k = some v := by
  have h2b : (truthy row.correct || truthy row.changed) = true := by
    rcases h2 with h | h <;> simp [h]
  have hpres : dict_get (dict_update ps.annotations (row_annotations row)) k = some v := by
    rw [dict_get_dict_update_of_not_mem _ _ _ (row_annotations_no_key row k hk)]
    exact hset
  refine ⟨{ citation := some ⟨CITATION_TYPE_PUBMED, r⟩, evidence := some row.evidence,
            annotations := dict_update ps.annotations (row_annotations row) },
          ⟨row.subject ++ " " ++ row.predicate ++ " " ++ row.object, ln,
            some ⟨CITATION_TYPE_PUBMED, r⟩, some row.evidence,
            dict_update ps.annotations (row_annotations row)⟩, ?_, hpres, hpres⟩
  simp [process_row, h1, h2b, href, hrne, hparse]

/-- C10, witness: the persistence theorem applied to a context holding an
`INDRA_UUID` annotation and a follow-up row lacking that column. -/
theorem C10_witness :
    ∃ (ps2 : ParserState) (e : GraphEdge),
      process_row (fun _ _ => none) (annotated_state, ⟨[], []⟩) followup_row 6 =
        .ok (ps2, { (⟨[], []⟩ : BELGraph) with edges := (⟨[], []⟩ : BELGraph).edges ++ [e] }) ∧
      dict_get ps2.annotations "INDRA_UUID" = some "uuid-1" ∧
      dict_get e.annotations "INDRA_UUID" = some "uuid-1" :=
  C10_annotation_persists (fun _ _ => none) annotated_state ⟨[], []⟩ followup_row 6
    "INDRA_UUID" "uuid-1" (Or.inl ⟨rfl, rfl⟩) (by decide) (by decide) (Or.inl (by decide))
    "200" (by decide) (by decide) rfl

end BelEnrichment
